import Mathlib

/-!
Verification of the bJSON serialization library (src/include/bJSON.h and
src/tests/TESTS_bJSON.cpp) against its natural-language specification.

The C++ value model and every serialization implementation are embedded
shallowly: `JSONValue` mirrors the `ben::json::JSONValue` struct (a type tag
plus a variant payload, which the C++ type keeps independent of one another),
each `serializer_impl_*` function mirrors the corresponding
`JSONSerializationInfo<T>::serializer_impl` body, exceptions are modelled with
`Except String`, and the catching `serialize` dispatcher (bJSON.h lines
395-417) is modelled by `runSerialize` composed with the implementation.
-/

namespace BJson

/-- The `JSONValue::JSONValueType` enum (bJSON.h lines 187-196): the tracked
state of the variant payload, with `undefined` denoting a default-constructed,
empty-initialized or moved-from value. -/
inductive JSONValueType : Type where
  | undefined
  | literal
  | number
  | string
  | array
  | object
deriving DecidableEq, Repr

mutual
/-- A `JSONValue` (bJSON.h lines 141-318) is a type tag together with a variant
payload; the C++ struct keeps the two members independent of one another. -/
inductive JSONValue : Type where
  | mk (type : JSONValueType) (value : JSONVariant)
/-- The variant payload of a `JSONValue`: the member
`std::variant<LiteralType, NumberType, StringType, ArrayType, ObjectType>`
(bJSON.h line 205).  `LiteralType` is the `JSONLiteralType` enum, modelled by
its underlying integer (`null_v` = 0, `true_v` = 1, `false_v` = 2; a C++ enum
may also hold out-of-range values, e.g. after an accidental empty
initialization, which the literal serializer guards against).  `NumberType` is
`long double` (bJSON.h line 164), modelled as `Rat`.  `StringType` is
`std::string`.  `ArrayType` is `std::vector<JSONValue>`, modelled as a list.
`ObjectType` is `std::unordered_map<std::string, JSONValue>`, modelled as its
list of key/value entries in iteration order (the map's iteration order is
unspecified, so theorems about objects never rely on a particular entry
order). -/
inductive JSONVariant : Type where
  | lit (v : Int)
  | num (v : Rat)
  | str (s : String)
  | arr (elems : List JSONValue)
  | obj (entries : List (String × JSONValue))
end

/-- The `type` member of `JSONValue` (bJSON.h line 201). -/
def JSONValue.type : JSONValue → JSONValueType
  | .mk t _ => t

/-- The `value` member of `JSONValue` (bJSON.h line 205). -/
def JSONValue.value : JSONValue → JSONVariant
  | .mk _ v => v

/-- `JSONLiteralType::null_v` (bJSON.h line 148). -/
def null_v : Int := 0

/-- `JSONLiteralType::true_v` (bJSON.h line 149). -/
def true_v : Int := 1

/-- `JSONLiteralType::false_v` (bJSON.h line 150). -/
def false_v : Int := 2

/-- The default constructor (bJSON.h lines 201-211): `type` is `undefined` and
the variant member initializer is `LiteralType::null_v`. -/
def JSONValue.default : JSONValue := .mk .undefined (.lit null_v)

/-- The `LiteralType` constructor (bJSON.h line 221). -/
def JSONValue.ofLiteral (val : Int) : JSONValue := .mk .literal (.lit val)

/-- The `bool` constructor (bJSON.h line 227): true maps to `true_v`, false to
`false_v`, then the `LiteralType` constructor runs. -/
def JSONValue.ofBool (val : Bool) : JSONValue :=
  JSONValue.ofLiteral (if val then true_v else false_v)

/-- The `NumberType` constructor (bJSON.h line 231). -/
def JSONValue.ofNumber (val : Rat) : JSONValue := .mk .number (.num val)

/-- The arithmetic-type template constructor (bJSON.h lines 238-239): it
widens the argument to `NumberType` and delegates to the `NumberType`
constructor; the argument here is the already-widened numeric value. -/
def JSONValue.ofArith (val : Rat) : JSONValue := JSONValue.ofNumber val

/-- The `StringType` constructors (bJSON.h lines 244 and 249). -/
def JSONValue.ofString (val : String) : JSONValue := .mk .string (.str val)

/-- The `const char*` constructor (bJSON.h line 254): a null pointer is
modelled as `none` and maps to the empty string. -/
def JSONValue.ofCharPtr (val : Option String) : JSONValue :=
  JSONValue.ofString (val.getD "")

/-- The `ArrayType` constructors (bJSON.h lines 259 and 264). -/
def JSONValue.ofArray (val : List JSONValue) : JSONValue := .mk .array (.arr val)

/-- The `ObjectType` constructors (bJSON.h lines 271 and 276). -/
def JSONValue.ofObject (val : List (String × JSONValue)) : JSONValue :=
  .mk .object (.obj val)

/-- The move constructor (bJSON.h lines 286-289): the destination receives the
source's `type` and `value`, then `other.type` is set to `undefined`.  The
result is the pair (destination, source after the move); the moved-from C++
variant payload is in a valid but unspecified state, and since the source's
tag is `undefined` no serialization path ever reads it, so it is modelled as
retained. -/
def JSONValue.moveCtor (other : JSONValue) : JSONValue × JSONValue :=
  (.mk other.type other.value, .mk .undefined other.value)

/-- The move-assignment operator (bJSON.h lines 309-317) applied in the
self-assignment case `v = std::move(v)`, where `this` and `other` alias: the
statement `type = other.type` leaves `type` unchanged, `value =
std::move(other.value)` self-moves the variant, and the final statement
`other.type = JSONValueType::undefined` writes `undefined` through the alias
into the object itself. -/
def JSONValue.selfMoveAssign (v : JSONValue) : JSONValue := .mk .undefined v.value

/-- The body of the catching `serialize` dispatcher (bJSON.h lines 399-417):
`serialized` starts empty; on success the implementation's result is appended,
and any thrown error is caught (a diagnostic is printed to std::cout, a side
channel not modelled here) leaving `serialized` empty. -/
def runSerialize : Except String String → String
  | .ok s => "" ++ s
  | .error _ => ""

/-- `JSONSerializationInfo<JSONValue::LiteralType>::serializer_impl` (bJSON.h
lines 432-451): switch over the three enum values, appending the literal text;
any other underlying value throws. -/
def serializer_impl_literal (val : Int) : Except String String :=
  if val = null_v then .ok ("" ++ "null")
  else if val = true_v then .ok ("" ++ "true")
  else if val = false_v then .ok ("" ++ "false")
  else .error "JSONLiteral had invalid value"

/-- Models `std::format` with format text consisting of a single replacement
field applied to the `long double` value (bJSON.h line 455).  The exact
shortest-round-trip decimal rendering of a floating-point value is standard
library behaviour outside this repository and no claim under verification
depends on the rendered digits, only on both conversion paths using this same
function. -/
def formatNumber (v : Rat) : String := toString v

/-- `JSONSerializationInfo<JSONValue::NumberType>::serializer_impl` (bJSON.h
lines 453-457). -/
def serializer_impl_number (val : Rat) : Except String String :=
  .ok (formatNumber val)

/-- One `std::regex_replace` pass with a single-character pattern (as all seven
patterns in the string serializer are): every occurrence of the character `c`
in `s` is replaced by the text `r`; the output is not rescanned. -/
def replaceChar (s : List Char) (c : Char) (r : List Char) : List Char :=
  s.flatMap (fun ch => if ch = c then r else [ch])

/-- `JSONSerializationInfo<JSONValue::StringType>::serializer_impl` (bJSON.h
lines 459-474): seven sequential regex replacement passes (backslash, quote,
newline, carriage return, tab, form feed 0x0C, backspace 0x08), then a double
quote is inserted at each end. -/
def serializer_impl_string (val : String) : Except String String :=
  .ok (String.mk ('"' ::
    (replaceChar (replaceChar (replaceChar (replaceChar (replaceChar (replaceChar (replaceChar
      val.data '\\' ['\\', '\\']) '"' ['\\', '"']) '\n' ['\\', 'n']) '\r' ['\\', 'r'])
      '\t' ['\\', 't']) (Char.ofNat 12) ['\\', 'f']) (Char.ofNat 8) ['\\', 'b'])
    ++ ['"']))

mutual
/-- `JSONSerializationInfo<JSONValue>::serializer_impl` (bJSON.h lines
530-556): switch on `type`; each defined case appends the result of the
catching `serialize` call on `std::get<...>(val.value)` (so a failure of the
inner conversion is caught there and contributes empty text), `std::get` on a
payload that disagrees with the tag throws `std::bad_variant_access`, and the
`undefined` case throws. -/
def serializer_impl_value : JSONValue → Except String String
  | .mk t v =>
    match t with
    | .undefined => .error "JSONValue type was undefined; it can not be serialized!"
    | .literal =>
      match v with
      | .lit x => .ok ("" ++ runSerialize (serializer_impl_literal x))
      | _ => .error "bad_variant_access"
    | .number =>
      match v with
      | .num x => .ok ("" ++ runSerialize (serializer_impl_number x))
      | _ => .error "bad_variant_access"
    | .string =>
      match v with
      | .str s => .ok ("" ++ runSerialize (serializer_impl_string s))
      | _ => .error "bad_variant_access"
    | .array =>
      match v with
      | .arr l => .ok ("" ++ runSerialize (serializer_impl_array l))
      | _ => .error "bad_variant_access"
    | .object =>
      match v with
      | .obj m => .ok ("" ++ runSerialize (serializer_impl_object m))
      | _ => .error "bad_variant_access"
termination_by v => sizeOf v
decreasing_by all_goals (simp_wf; omega)

/-- `JSONSerializationInfo<JSONValue::ArrayType>::serializer_impl` (bJSON.h
lines 476-500): starts from a single opening bracket, runs the element loop
with its `first` flag initially true, and appends a space and the closing
bracket. -/
def serializer_impl_array (l : List JSONValue) : Except String String :=
  .ok ("[" ++ arrayLoop true l ++ " ]")
termination_by sizeOf l + 1
decreasing_by all_goals simp_wf

/-- The element loop of the array serializer (bJSON.h lines 479-497): elements
whose `type` is `undefined` are skipped; otherwise a comma is appended unless
this is the first retained element, then a space and the element's text from
the catching `serialize` call. -/
def arrayLoop (first : Bool) : List JSONValue → String
  | [] => ""
  | e :: rest =>
    if e.type = .undefined then arrayLoop first rest
    else (if !first then "," else "") ++ " " ++ runSerialize (serializer_impl_value e)
      ++ arrayLoop false rest
termination_by l => sizeOf l
decreasing_by all_goals (simp_wf <;> omega)

/-- `JSONSerializationInfo<JSONValue::ObjectType>::serializer_impl` (bJSON.h
lines 502-528): starts from a single opening brace, runs the entry loop with
its `first` flag initially true, and appends a space and the closing brace. -/
def serializer_impl_object (m : List (String × JSONValue)) : Except String String :=
  .ok ("\x7b" ++ objectLoop true m ++ " \x7d")
termination_by sizeOf m + 1
decreasing_by all_goals simp_wf

/-- The entry loop of the object serializer (bJSON.h lines 505-525): entries
whose value's `type` is `undefined` are skipped; otherwise a comma is appended
unless this is the first retained entry, then a space, the serialization of
`JSONValue{key}` (the key wrapped in a string-typed value and fed through the
catching `serialize` call), the text " : ", and the value's text. -/
def objectLoop (first : Bool) : List (String × JSONValue) → String
  | [] => ""
  | (k, v) :: rest =>
    if v.type = .undefined then objectLoop first rest
    else (if !first then "," else "") ++ " "
      ++ runSerialize (serializer_impl_value (.mk .string (.str k))) ++ " : "
      ++ runSerialize (serializer_impl_value v)
      ++ objectLoop false rest
termination_by m => sizeOf m
decreasing_by
  all_goals simp_wf
  all_goals try omega
  all_goals (have h1 : 1 ≤ sizeOf v := by cases v; simp_arith
             have h2 : 1 ≤ sizeOf rest := by cases rest <;> simp_arith
             omega)
end

/-- The `serialize<JSONValue::LiteralType>` dispatcher instance (bJSON.h lines
395-417 applied to the literal implementation). -/
def serialize_literal (val : Int) : String := runSerialize (serializer_impl_literal val)

/-- The `serialize<JSONValue::NumberType>` dispatcher instance. -/
def serialize_number (val : Rat) : String := runSerialize (serializer_impl_number val)

/-- The `serialize<JSONValue::StringType>` dispatcher instance. -/
def serialize_string (val : String) : String := runSerialize (serializer_impl_string val)

/-- The `serialize<JSONValue::ArrayType>` dispatcher instance. -/
def serialize_array (val : List JSONValue) : String := runSerialize (serializer_impl_array val)

/-- The `serialize<JSONValue::ObjectType>` dispatcher instance. -/
def serialize_object (val : List (String × JSONValue)) : String :=
  runSerialize (serializer_impl_object val)

/-- The `serialize<JSONValue>` dispatcher instance. -/
def serialize_value (val : JSONValue) : String := runSerialize (serializer_impl_value val)

/-- The conversion-path `serialize` overload (bJSON.h lines 570-574) applied to
a `bool`: it constructs `JSONValue{val}` and serializes that value. -/
def serialize_from_bool (val : Bool) : String := serialize_value (JSONValue.ofBool val)

/-- The conversion-path `serialize` overload (bJSON.h lines 570-574) applied to
an arithmetic value (given by the `long double` it widens to): it constructs
`JSONValue{val}` and serializes that value. -/
def serialize_from_arith (val : Rat) : String := serialize_value (JSONValue.ofArith val)

/-- A closed universe of the C++ source types relevant to the compile-time
serializability predicates: the five builtin variant types, `JSONValue`
itself, the user-registered `Example` struct from the tests
(TESTS_bJSON.cpp lines 16-44), the implicitly-convertible types `bool`,
`unsigned int` and `const char*` exercised by the tests, and
`std::vector<int>` as a representative type with neither conversion path. -/
inductive CppType : Type where
  | literalT
  | numberT
  | stringT
  | arrayT
  | objectT
  | valueT
  | exampleT
  | boolT
  | unsignedT
  | charPtrT
  | vectorIntT
deriving DecidableEq, Repr

/-- `is_json_serializable_v<T>` (bJSON.h lines 361-364): the
`JSONSerializationInfo<T>::serializable` flag, which the primary template
defaults to false (line 348) and which the registration macros specialize to
true; specializations exist for the five variant types (lines 428-556) and
`JSONValue` itself, and the tests register `Example`
(TESTS_bJSON.cpp line 25). -/
def is_json_serializable_v : CppType → Bool
  | .literalT | .numberT | .stringT | .arrayT | .objectT | .valueT | .exampleT => true
  | _ => false

/-- `std::is_constructible_v<JSONValue, T>` for each universe member, read off
the constructor list (bJSON.h lines 207-289): `LiteralType`, `bool`,
`NumberType`, arithmetic types such as `unsigned int`, `StringType`,
`const char*`, `ArrayType`, `ObjectType` and `JSONValue` itself each have a
constructor; `Example` and `std::vector<int>` match none. -/
def is_constructible_json_value : CppType → Bool
  | .exampleT | .vectorIntT => false
  | _ => true

/-- `converts_to_json_value_v<T>` (bJSON.h lines 376-378): T is not directly
serializable, is not `JSONValue` itself, and a `JSONValue` can be constructed
from T. -/
def converts_to_json_value_v (t : CppType) : Bool :=
  !is_json_serializable_v t && !(t == .valueT) && is_constructible_json_value t

/-- Character-wise escaping map as the specification words it: the seven named
escapes each map to their two-character escape text and every other character
passes through unchanged. -/
def specEscapeChar (c : Char) : List Char :=
  if c = '\\' then ['\\', '\\']
  else if c = '"' then ['\\', '"']
  else if c = '\n' then ['\\', 'n']
  else if c = '\r' then ['\\', 'r']
  else if c = '\t' then ['\\', 't']
  else if c = Char.ofNat 12 then ['\\', 'f']
  else if c = Char.ofNat 8 then ['\\', 'b']
  else [c]

/-- Comma-separated concatenation as the specification words the container
rendering: each retained rendered entry, with a comma before every entry after
the first. -/
def commaSeparated : List String → String
  | [] => ""
  | [s] => s
  | s :: b :: rest => s ++ "," ++ commaSeparated (b :: rest)

@[simp]
theorem runSerialize_ok (s : String) : runSerialize (.ok s) = s :=
  String.empty_append s

@[simp]
theorem runSerialize_error (e : String) : runSerialize (.error e) = "" := rfl

@[simp]
theorem run_impl_value (v : JSONValue) :
    runSerialize (serializer_impl_value v) = serialize_value v := rfl

theorem serialize_value_undefined (v : JSONVariant) :
    serialize_value (.mk .undefined v) = "" := by
  rw [serialize_value, serializer_impl_value]
  rfl

theorem serialize_value_literal (x : Int) :
    serialize_value (.mk .literal (.lit x)) = serialize_literal x := by
  rw [serialize_value, serializer_impl_value]
  simp [serialize_literal]

theorem serialize_value_number (x : Rat) :
    serialize_value (.mk .number (.num x)) = serialize_number x := by
  rw [serialize_value, serializer_impl_value]
  simp [serialize_number]

theorem serialize_value_string (s : String) :
    serialize_value (.mk .string (.str s)) = serialize_string s := by
  rw [serialize_value, serializer_impl_value]
  simp [serialize_string]

theorem serialize_value_array (l : List JSONValue) :
    serialize_value (.mk .array (.arr l)) = serialize_array l := by
  rw [serialize_value, serializer_impl_value]
  simp [serialize_array]

theorem serialize_value_object (m : List (String × JSONValue)) :
    serialize_value (.mk .object (.obj m)) = serialize_object m := by
  rw [serialize_value, serializer_impl_value]
  simp [serialize_object]

theorem commaSeparated_cons (s : String) (l : List String) (h : l ≠ []) :
    commaSeparated (s :: l) = s ++ "," ++ commaSeparated l := by
  cases l with
  | nil => exact absurd rfl h
  | cons b rest => rfl

@[simp]
theorem replaceChar_nil (c : Char) (r : List Char) : replaceChar [] c r = [] := rfl

theorem replaceChar_cons (a : Char) (l : List Char) (c : Char) (r : List Char) :
    replaceChar (a :: l) c r = (if a = c then r else [a]) ++ replaceChar l c r := by
  simp [replaceChar]

theorem replaceChar_append (l₁ l₂ : List Char) (c : Char) (r : List Char) :
    replaceChar (l₁ ++ l₂) c r = replaceChar l₁ c r ++ replaceChar l₂ c r := by
  simp [replaceChar]

theorem escape_single (c : Char) :
    replaceChar (replaceChar (replaceChar (replaceChar (replaceChar (replaceChar (replaceChar
      [c] '\\' ['\\', '\\']) '"' ['\\', '"']) '\n' ['\\', 'n']) '\r' ['\\', 'r'])
      '\t' ['\\', 't']) (Char.ofNat 12) ['\\', 'f']) (Char.ofNat 8) ['\\', 'b']
    = specEscapeChar c := by
  by_cases h1 : c = '\\'
  · subst h1; decide
  by_cases h2 : c = '"'
  · subst h2; decide
  by_cases h3 : c = '\n'
  · subst h3; decide
  by_cases h4 : c = '\r'
  · subst h4; decide
  by_cases h5 : c = '\t'
  · subst h5; decide
  by_cases h6 : c = Char.ofNat 12
  · subst h6; decide
  by_cases h7 : c = Char.ofNat 8
  · subst h7; decide
  simp [replaceChar, specEscapeChar, h1, h2, h3, h4, h5, h6, h7]

theorem escape_chain (l : List Char) :
    replaceChar (replaceChar (replaceChar (replaceChar (replaceChar (replaceChar (replaceChar
      l '\\' ['\\', '\\']) '"' ['\\', '"']) '\n' ['\\', 'n']) '\r' ['\\', 'r'])
      '\t' ['\\', 't']) (Char.ofNat 12) ['\\', 'f']) (Char.ofNat 8) ['\\', 'b']
    = l.flatMap specEscapeChar := by
  induction l with
  | nil => rfl
  | cons c t ih =>
    have hct : c :: t = [c] ++ t := rfl
    rw [hct]
    simp only [replaceChar_append]
    rw [ih, escape_single]
    simp

theorem comma_space (s : String) : ("," : String) ++ (" " ++ s) = ", " ++ s := by
  have h : ("," : String) ++ " " = ", " := by decide
  rw [← String.append_assoc, h]

theorem arrayLoop_spec (l : List JSONValue) : ∀ first : Bool,
    arrayLoop first l =
      (cond first "" (cond (l.filter fun e => !(e.type == .undefined)).isEmpty "" ","))
      ++ commaSeparated ((l.filter fun e => !(e.type == .undefined)).map
          fun e => " " ++ serialize_value e) := by
  induction l with
  | nil =>
    intro first
    rw [arrayLoop]
    cases first <;> simp [commaSeparated]
  | cons e rest ih =>
    intro first
    rw [arrayLoop]
    by_cases he : e.type = .undefined
    · rw [if_pos he, ih first]
      simp [List.filter_cons, he]
    · rw [if_neg he, ih false]
      have hkeep : (e.type == .undefined) = false := by simp [he]
      simp only [List.filter_cons, hkeep, Bool.not_false, if_true, List.map_cons]
      cases hfr : rest.filter (fun e => !(e.type == .undefined)) with
      | nil =>
        simp only [hfr, List.map_nil, List.isEmpty_nil, commaSeparated, cond_true,
          cond_false, run_impl_value]
        cases first <;>
          simp [String.append_assoc, String.append_empty, String.empty_append, comma_space]
      | cons x xs =>
        simp only [hfr, List.map_cons, List.isEmpty_cons, commaSeparated, cond_true,
          cond_false, run_impl_value]
        cases first <;>
          simp [String.append_assoc, String.append_empty, String.empty_append, comma_space]

theorem objectLoop_spec (m : List (String × JSONValue)) : ∀ first : Bool,
    objectLoop first m =
      (cond first "" (cond (m.filter fun kv => !(kv.2.type == .undefined)).isEmpty "" ","))
      ++ commaSeparated ((m.filter fun kv => !(kv.2.type == .undefined)).map
          fun kv => " " ++ serialize_string kv.1 ++ " : " ++ serialize_value kv.2) := by
  induction m with
  | nil =>
    intro first
    rw [objectLoop]
    cases first <;> simp [commaSeparated]
  | cons kv rest ih =>
    obtain ⟨k, v⟩ := kv
    intro first
    rw [objectLoop]
    by_cases he : v.type = .undefined
    · rw [if_pos he, ih first]
      simp [List.filter_cons, he]
    · rw [if_neg he, ih false]
      have hkeep : (v.type == .undefined) = false := by simp [he]
      simp only [List.filter_cons, hkeep, Bool.not_false, if_true, List.map_cons,
        run_impl_value, serialize_value_string]
      cases hfr : rest.filter (fun kv => !(kv.2.type == .undefined)) with
      | nil =>
        simp only [hfr, List.map_nil, List.isEmpty_nil, commaSeparated, cond_true,
          cond_false]
        cases first <;>
          simp [String.append_assoc, String.append_empty, String.empty_append, comma_space]
      | cons x xs =>
        simp only [hfr, List.map_cons, List.isEmpty_cons, commaSeparated, cond_true,
          cond_false]
        cases first <;>
          simp [String.append_assoc, String.append_empty, String.empty_append, comma_space]

/-- C8: For every input string, the Text conversion wraps the content in double
quotes and escapes exactly backslash, double-quote, newline, carriage return,
tab, form feed and backspace to their two-character escapes, while every other
character passes through unchanged; in particular the one-character string
holding a backslash serializes to the four characters quote backslash
backslash quote. -/
theorem text_escaping_exact :
    (∀ s : String,
      serialize_string s = String.mk ('"' :: s.data.flatMap specEscapeChar ++ ['"'])) ∧
    serialize_string "\\" = "\"\\\\\"" := by
  constructor
  · intro s
    simp only [serialize_string, serializer_impl_string, runSerialize_ok]
    rw [escape_chain]
  · decide

/-- C1 counterexample: the Text conversion does NOT escape the control
character 0x00 as a 4-hex-digit escape; serializing the one-character string
holding 0x00 yields the quoted raw byte, not the text claimed by the
specification. -/
theorem ctrl_escape_counterexample :
    serialize_string (String.mk [Char.ofNat 0]) = String.mk ['"', Char.ofNat 0, '"'] ∧
    serialize_string (String.mk [Char.ofNat 0]) ≠ "\"\\u0000\"" := by
  constructor
  · decide
  · decide

/-- C1 amended: every control character in the range 0x00-0x1F that is not one
of the named escapes passes through the Text conversion unchanged (no
4-hex-digit escape is produced); in particular serializing the one-character
string holding 0x00 yields quote, the raw 0x00 byte, quote. -/
theorem ctrl_passthrough :
    ∀ c : Char, c.toNat < 32 →
      c ≠ '\n' → c ≠ '\r' → c ≠ '\t' → c ≠ Char.ofNat 12 → c ≠ Char.ofNat 8 →
      serialize_string (String.mk [c]) = String.mk ['"', c, '"'] := by
  intro c hlt h3 h4 h5 h6 h7
  have h1 : c ≠ '\\' := by
    intro h; subst h; exact absurd hlt (by decide)
  have h2 : c ≠ '"' := by
    intro h; subst h; exact absurd hlt (by decide)
  simp only [serialize_string, serializer_impl_string, runSerialize_ok]
  rw [escape_single]
  simp [specEscapeChar, h1, h2, h3, h4, h5, h6, h7]

/-- C1 witness: the amended statement applied to the concrete control
character 0x00. -/
theorem ctrl_passthrough_witness :
    serialize_string (String.mk [Char.ofNat 0]) = String.mk ['"', Char.ofNat 0, '"'] :=
  ctrl_passthrough (Char.ofNat 0) (by decide) (by decide) (by decide) (by decide)
    (by decide) (by decide)

/-- C5: a default-constructed Value and a moved-from Value have kind
`undefined` and serialize to the empty text (never "null"); the move
constructor transfers kind and payload to the destination and resets the
source's kind to `undefined`, so moved-from values serialize identically to
default-constructed ones. -/
theorem default_moved_serialize_empty :
    JSONValue.default.type = .undefined ∧
    serialize_value JSONValue.default = "" ∧
    serialize_value JSONValue.default ≠ "null" ∧
    ∀ v : JSONValue,
      (JSONValue.moveCtor v).1 = .mk v.type v.value ∧
      (JSONValue.moveCtor v).2.type = .undefined ∧
      serialize_value (JSONValue.moveCtor v).2 = "" ∧
      serialize_value (JSONValue.moveCtor v).2 = serialize_value JSONValue.default := by
  refine ⟨rfl, serialize_value_undefined _, ?_, ?_⟩
  · rw [show JSONValue.default = .mk .undefined (.lit null_v) from rfl,
      serialize_value_undefined]
    decide
  · intro v
    refine ⟨rfl, rfl, serialize_value_undefined _, ?_⟩
    rw [show (JSONValue.moveCtor v).2 = .mk .undefined v.value from rfl,
      serialize_value_undefined,
      show JSONValue.default = .mk .undefined (.lit null_v) from rfl,
      serialize_value_undefined]

/-- C10: self-move-assignment destroys a Value: for every Value of any kind,
the move-assignment operator run with the source aliasing the destination
leaves the kind `undefined`, so the value afterwards serializes to empty text
even if it previously held a literal, number, string, array or object. -/
theorem self_move_assign_resets :
    ∀ v : JSONValue,
      (v.selfMoveAssign).type = .undefined ∧
      serialize_value v.selfMoveAssign = "" ∧
      serialize_value v.selfMoveAssign = serialize_value JSONValue.default := by
  intro v
  refine ⟨rfl, serialize_value_undefined _, ?_⟩
  rw [show v.selfMoveAssign = .mk .undefined v.value from rfl,
    serialize_value_undefined,
    show JSONValue.default = .mk .undefined (.lit null_v) from rfl,
    serialize_value_undefined]

/-- C9: serialization through the implicit-conversion path agrees with direct
variant serialization: a bool serializes like the literal it converts to, and
every arithmetic input serializes like the Number it widens to; the literal
texts are "null", "true" and "false". -/
theorem conversion_agreement :
    serialize_from_bool true = serialize_literal true_v ∧
    serialize_from_bool false = serialize_literal false_v ∧
    (∀ x : Rat, serialize_from_arith x = serialize_number x) ∧
    serialize_literal null_v = "null" ∧
    serialize_literal true_v = "true" ∧
    serialize_literal false_v = "false" := by
  refine ⟨?_, ?_, ?_, by decide, by decide, by decide⟩
  · exact serialize_value_literal true_v
  · exact serialize_value_literal false_v
  · intro x; exact serialize_value_number x

/-- C4: for every serializable input the dispatcher never raises: if the
underlying implementation succeeds its text is returned, and if it throws the
error is caught at that dispatcher boundary and the result is exactly the
empty text — the caller always receives text.  The array and object
implementations themselves never throw (each child failure is absorbed by the
inner dispatcher call), so a failure is caught exactly once, at the nearest
boundary that invoked the failing conversion. -/
theorem serialize_never_raises :
    (∀ v : JSONValue,
        (∃ s, serializer_impl_value v = .ok s ∧ serialize_value v = s) ∨
        (∃ e, serializer_impl_value v = .error e ∧ serialize_value v = "")) ∧
    (∀ l : List JSONValue, ∃ s, serializer_impl_array l = .ok s) ∧
    (∀ m : List (String × JSONValue), ∃ s, serializer_impl_object m = .ok s) := by
  refine ⟨?_, ?_, ?_⟩
  · intro v
    cases h : serializer_impl_value v with
    | ok s => exact Or.inl ⟨s, rfl, by rw [serialize_value, h, runSerialize_ok]⟩
    | error e => exact Or.inr ⟨e, rfl, by rw [serialize_value, h, runSerialize_error]⟩
  · intro l
    exact ⟨"[" ++ arrayLoop true l ++ " ]", by rw [serializer_impl_array]⟩
  · intro m
    exact ⟨"\x7b" ++ objectLoop true m ++ " \x7d", by rw [serializer_impl_object]⟩


/-- C6: the Array conversion renders an opening bracket, then each element
whose kind is not `undefined`, in input order, as a space followed by the
element's serialized text, with a comma before every subsequent retained
element, closing with space-bracket; an empty or all-undefined array renders
exactly as bracket-space-bracket; and serializing the array holding true, an
undefined value and the string "test" yields exactly the claimed text. -/
theorem array_rendering :
    (∀ l : List JSONValue,
        serialize_array l =
          "[" ++ commaSeparated ((l.filter fun e => !(e.type == .undefined)).map
            fun e => " " ++ serialize_value e) ++ " ]") ∧
    (∀ l : List JSONValue, (∀ e ∈ l, e.type = .undefined) → serialize_array l = "[ ]") ∧
    serialize_array [JSONValue.ofBool true, JSONValue.default, JSONValue.ofString "test"]
      = "[ true, \"test\" ]" := by
  have hmain : ∀ l : List JSONValue,
      serialize_array l =
        "[" ++ commaSeparated ((l.filter fun e => !(e.type == .undefined)).map
          fun e => " " ++ serialize_value e) ++ " ]" := by
    intro l
    rw [serialize_array, serializer_impl_array, runSerialize_ok, arrayLoop_spec l true]
    simp [String.empty_append]
  refine ⟨hmain, ?_, ?_⟩
  · intro l hall
    rw [hmain]
    have hfil : (l.filter fun e => !(e.type == .undefined)) = [] := by
      simp only [List.filter_eq_nil_iff]
      intro e he
      simp [hall e he]
    rw [hfil]
    decide
  · rw [hmain]
    simp [JSONValue.ofBool, JSONValue.ofLiteral, JSONValue.ofString, JSONValue.default,
      JSONValue.type, commaSeparated, serialize_value_literal, serialize_value_string,
      serialize_literal, serialize_string, serializer_impl_literal, serializer_impl_string,
      replaceChar, true_v, false_v, null_v]

/-- C6 witness: the all-undefined case applied to the singleton list holding a
default-constructed value. -/
theorem array_rendering_witness :
    serialize_array [JSONValue.default] = "[ ]" :=
  array_rendering.2.1 [JSONValue.default] (by decide)

/-- C7: the Object conversion renders an opening brace, then each entry whose
value's kind is not `undefined` as a space, the key fed through the same Text
conversion, space-colon-space, and the value's serialized text, with a comma
before each subsequent retained entry, closing with space-brace; entries with
an undefined value are dropped entirely, and permuting the input entries
permutes the rendered entries (the rendered set, not a fixed textual order, is
determined by the input). -/
theorem object_rendering :
    (∀ m : List (String × JSONValue),
        serialize_object m =
          "\x7b" ++ commaSeparated ((m.filter fun kv => !(kv.2.type == .undefined)).map
            fun kv => " " ++ serialize_string kv.1 ++ " : " ++ serialize_value kv.2)
          ++ " \x7d") ∧
    (∀ k : String, serialize_value (JSONValue.ofString k) = serialize_string k) ∧
    (∀ m₁ m₂ : List (String × JSONValue), m₁.Perm m₂ →
        ((m₁.filter fun kv => !(kv.2.type == .undefined)).map
          fun kv => " " ++ serialize_string kv.1 ++ " : " ++ serialize_value kv.2).Perm
        ((m₂.filter fun kv => !(kv.2.type == .undefined)).map
          fun kv => " " ++ serialize_string kv.1 ++ " : " ++ serialize_value kv.2)) ∧
    serialize_object [("1", JSONValue.ofBool true), ("2", JSONValue.default),
        ("3", JSONValue.ofString "test")]
      = "\x7b \"1\" : true, \"3\" : \"test\" \x7d" := by
  have hmain : ∀ m : List (String × JSONValue),
      serialize_object m =
        "\x7b" ++ commaSeparated ((m.filter fun kv => !(kv.2.type == .undefined)).map
          fun kv => " " ++ serialize_string kv.1 ++ " : " ++ serialize_value kv.2)
        ++ " \x7d" := by
    intro m
    rw [serialize_object, serializer_impl_object, runSerialize_ok, objectLoop_spec m true]
    simp [String.empty_append]
  refine ⟨hmain, ?_, ?_, ?_⟩
  · intro k; exact serialize_value_string k
  · intro m₁ m₂ h
    exact (h.filter _).map _
  · rw [hmain]
    simp [JSONValue.ofBool, JSONValue.ofLiteral, JSONValue.ofString, JSONValue.default,
      JSONValue.type, commaSeparated, serialize_value_literal, serialize_value_string,
      serialize_literal, serialize_string, serializer_impl_literal, serializer_impl_string,
      replaceChar, true_v, false_v, null_v]

/-- C7 witness: the permutation clause applied to two concrete two-entry
inputs that swap their entries. -/
theorem object_rendering_witness :
    (([("a", JSONValue.ofBool true), ("b", JSONValue.ofBool false)].filter
        fun kv => !(kv.2.type == JSONValueType.undefined)).map
        fun kv => " " ++ serialize_string kv.1 ++ " : " ++ serialize_value kv.2).Perm
      (([("b", JSONValue.ofBool false), ("a", JSONValue.ofBool true)].filter
        fun kv => !(kv.2.type == JSONValueType.undefined)).map
        fun kv => " " ++ serialize_string kv.1 ++ " : " ++ serialize_value kv.2) :=
  object_rendering.2.2.1 _ _ (List.Perm.swap _ _ _)

/-- C2 counterexample: `is_json_serializable_v` is false for `bool`, even
though a `JSONValue` can be implicitly constructed from a `bool` (the implicit
path is covered by the separate predicate `converts_to_json_value_v`, which
requires direct serializability to be absent). -/
theorem serializable_bool_counterexample :
    is_json_serializable_v .boolT = false ∧
    is_constructible_json_value .boolT = true ∧
    converts_to_json_value_v .boolT = true := by
  decide

/-- C2 amended: `is_json_serializable_v` is true exactly for the five builtin
variant types, for `JSONValue` itself and for the user-registered type; types
from which a `JSONValue` can only be implicitly constructed (bool, unsigned
int, const char*) instead satisfy the separate predicate
`converts_to_json_value_v`; a type with neither path has both predicates
false. -/
theorem serializable_partition :
    ∀ t : CppType,
      (is_json_serializable_v t = true ↔
        (t = .literalT ∨ t = .numberT ∨ t = .stringT ∨ t = .arrayT ∨ t = .objectT ∨
          t = .valueT ∨ t = .exampleT)) ∧
      (converts_to_json_value_v t = true ↔
        (t = .boolT ∨ t = .unsignedT ∨ t = .charPtrT)) ∧
      ((is_json_serializable_v t || converts_to_json_value_v t) = false ↔
        t = .vectorIntT) := by
  intro t
  cases t <;> exact ⟨by decide, by decide, by decide⟩


/-- C3 counterexample: a child whose kind is not `undefined` but whose own
conversion fails (the literal payload 3 is outside the enum's defined values,
so the inner conversion throws and the inner dispatcher yields empty text) is
NOT dropped from the parent array: it occupies a present-but-empty slot (the
space of its entry remains between the separators), unlike an undefined-kind
child, which is dropped entirely. -/
theorem failing_child_counterexample :
    (JSONValue.ofLiteral 3).type ≠ JSONValueType.undefined ∧
    serialize_value (JSONValue.ofLiteral 3) = "" ∧
    serialize_array [JSONValue.ofBool true, JSONValue.ofLiteral 3] = "[ true,  ]" ∧
    serialize_array [JSONValue.ofBool true, JSONValue.ofLiteral 3]
      ≠ serialize_array [JSONValue.ofBool true, JSONValue.default] := by
  have h2 : serialize_value (JSONValue.ofLiteral 3) = "" := by
    simp [serialize_value, serializer_impl_value, serializer_impl_literal,
      JSONValue.ofLiteral, null_v, true_v, false_v]
  have h3 : serialize_array [JSONValue.ofBool true, JSONValue.ofLiteral 3] = "[ true,  ]" := by
    simp [serialize_array, serializer_impl_array, arrayLoop, serializer_impl_value,
      serializer_impl_literal, JSONValue.type, JSONValue.ofBool, JSONValue.ofLiteral,
      true_v, false_v, null_v]
  have h4 : serialize_array [JSONValue.ofBool true, JSONValue.default] = "[ true ]" := by
    simp [serialize_array, serializer_impl_array, arrayLoop, serializer_impl_value,
      serializer_impl_literal, JSONValue.type, JSONValue.ofBool, JSONValue.ofLiteral,
      JSONValue.default, true_v, false_v, null_v]
  refine ⟨by decide, h2, h3, ?_⟩
  rw [h3, h4]
  decide

/-- C3 amended: in an array or object, a child whose kind is not `undefined`
but whose serialization yields empty text renders as a present-but-empty entry
(its space and separators remain); only children whose kind is `undefined` are
dropped from the container's output entirely. -/
theorem failing_child_slot :
    ∀ v : JSONValue, v.type ≠ JSONValueType.undefined → serialize_value v = "" →
      serialize_array [JSONValue.ofBool true, v] = "[ true,  ]" ∧
      serialize_object [("k", v)] = "\x7b \"k\" :  \x7d" := by
  intro v hv hs
  have htrue : serialize_value (JSONValue.ofBool true) = "true" := by
    simp [JSONValue.ofBool, JSONValue.ofLiteral, serialize_value_literal, serialize_literal,
      serializer_impl_literal, true_v, false_v, null_v]
  constructor
  · rw [serialize_array, serializer_impl_array, runSerialize_ok, arrayLoop_spec]
    have hb : ((JSONValue.ofBool true).type == JSONValueType.undefined) = false := by decide
    have hvb : (v.type == JSONValueType.undefined) = false := by simp [hv]
    simp [List.filter_cons, hb, hvb, commaSeparated, htrue, hs]
  · rw [serialize_object, serializer_impl_object, runSerialize_ok, objectLoop_spec]
    have hvb : (v.type == JSONValueType.undefined) = false := by simp [hv]
    simp [List.filter_cons, hvb, commaSeparated, hs, serialize_string,
      serializer_impl_string, replaceChar]

/-- C3 witness: the amended statement applied to the literal-kind value with
invalid payload 3, whose serialization is empty text. -/
theorem failing_child_slot_witness :
    serialize_array [JSONValue.ofBool true, JSONValue.ofLiteral 3] = "[ true,  ]" ∧
    serialize_object [("k", JSONValue.ofLiteral 3)] = "\x7b \"k\" :  \x7d" :=
  failing_child_slot (JSONValue.ofLiteral 3) (by decide)
    (by simp [serialize_value, serializer_impl_value, serializer_impl_literal,
      JSONValue.ofLiteral, null_v, true_v, false_v])

end BJson
